import Mathlib

/-!
Verification development for the mcp-amadeus repository: a shallow embedding
of the authenticated Amadeus API client (OAuth2 token manager, request
executor) from src/mcp_amadeus/client.py and of the per-endpoint operations
from src/mcp_amadeus/operations/*.py, followed by theorems settling the
frozen behavioural claims about this code.

Modelling conventions (stated once, used throughout):
- JSON values are the inductive type Json below; Python dicts are Json.obj
  with an association list of fields, lists are Json.arr, and JSON numbers
  are rationals (the claims only compare simple decimal prices, where the
  rational ordering agrees with IEEE-double ordering).
- Wall-clock time (datetime.now()) is an integer number of seconds on an
  abstract timeline; one invocation is modelled as happening at a single
  instant `now`.
- Network interactions are abstracted into explicit parameters: each call
  that performs an HTTP round trip receives the outcome the wire would
  produce (a transport failure, or a response with a status code, raw body,
  and --- where the code parses it --- its parsed JSON).  The construction
  of the outbound request (URL path, query params, request body) determines
  only what the abstracted server returns, so it is folded into those
  parameters.
- Python exceptions are the PyErr type and fallible code runs in
  Except PyErr; httpx.HTTPStatusError raised by raise_for_status carries
  the status code and body.
- Python dict.get(k, d) on a value that is not a dict raises AttributeError;
  the shapings below are only ever applied to payloads where the code's
  dict/list expectations hold, and Json.get / Json.asArr return the default
  (resp. the empty list) on a non-object (resp. non-array) so that the
  shaping functions stay total.  The error-propagation theorems do not
  depend on the shaping bodies, which only run after a successful request.
-/

/-- JSON values, as returned by response.json(). -/
inductive Json where
  | null : Json
  | b : Bool → Json
  | num : ℚ → Json
  | s : String → Json
  | arr : List Json → Json
  | obj : List (String × Json) → Json

/-- Python dict.get(key, default): the value stored under the first matching
key of an object, or the default when the key is absent (or the value is not
an object, see the header note). -/
def Json.get : Json → String → Json → Json
  | .obj fields, key, dflt =>
    match fields.lookup key with
    | some v => v
    | none => dflt
  | _, _, dflt => dflt

/-- Python dict.get(key) with no default: absent keys give None. -/
def Json.getN (j : Json) (key : String) : Json :=
  j.get key Json.null

/-- View a JSON value as a list (iteration/slicing in the Python code). -/
def Json.asArr : Json → List Json
  | .arr items => items
  | _ => []

/-- Python exceptions that can cross the boundaries the claims talk about. -/
inductive PyErr where
  /-- httpx.HTTPStatusError from raise_for_status: status code and body. -/
  | httpStatusError : Nat → String → PyErr
  /-- json.JSONDecodeError (or a missing required field of the token payload). -/
  | jsonDecodeError : PyErr
  /-- httpx transport failure: connection error or timeout. -/
  | transportError : String → PyErr
  /-- TypeError, e.g. float(None) or joining non-strings. -/
  | typeError : PyErr
  /-- ValueError, e.g. float() on a non-numeric string. -/
  | valueError : PyErr
  deriving Repr, DecidableEq

/-- str(e): a rendering of the exception, as interpolated into messages.
The exact wording of httpx/json exception texts is not claim-relevant;
representative renderings are used. -/
def PyErr.str : PyErr → String
  | .httpStatusError status body => "HTTP status error " ++ toString status ++ ": " ++ body
  | .jsonDecodeError => "Expecting value"
  | .transportError msg => msg
  | .typeError => "TypeError"
  | .valueError => "could not convert string to float"

/-- Read a maximal run of leading decimal digits: accumulated value, number
of digits read, remaining characters. -/
def takeDigits (acc : ℕ) (count : ℕ) : List Char → ℕ × ℕ × List Char
  | c :: cs =>
    if c.isDigit then takeDigits (acc * 10 + (c.toNat - 48)) (count + 1) cs
    else (acc, count, c :: cs)
  | [] => (acc, count, [])

/-- The fixed-point decimal subset of Python float(string): optional sign,
digits, optional fractional part (the payload prices the code parses, such
as "150.00").  Exponents / inf / nan are outside the model. -/
def parseDecimal (str : String) : Option ℚ :=
  let cs := str.data
  let signAndRest : Int × List Char :=
    match cs with
    | '-' :: rest => (-1, rest)
    | '+' :: rest => (1, rest)
    | _ => (1, cs)
  let sign := signAndRest.1
  let afterSign := signAndRest.2
  let ipart := takeDigits 0 0 afterSign
  match ipart.2.2 with
  | [] => if ipart.2.1 = 0 then none else some (mkRat (sign * ipart.1) 1)
  | '.' :: frac =>
    let fpart := takeDigits 0 0 frac
    if fpart.2.2 = [] ∧ 0 < ipart.2.1 + fpart.2.1 then
      some (mkRat (sign * (ipart.1 * 10 ^ fpart.2.1 + fpart.1)) (10 ^ fpart.2.1))
    else none
  | _ => none

/-- Python float(x) on a JSON value: numbers pass through, numeric strings
are parsed (ValueError otherwise), booleans coerce, anything else is a
TypeError (in particular float(None)). -/
def pyFloat : Json → Except PyErr ℚ
  | .num q => .ok q
  | .s str =>
    match parseDecimal str with
    | some q => .ok q
    | none => .error .valueError
  | .b v => .ok (if v then 1 else 0)
  | _ => .error .typeError

/-- Python ",".join(xs): concatenation with separators; TypeError when an
element is not a string (in particular when a hotelId was missing). -/
def pyJoin (sep : String) : List Json → Except PyErr String
  | [] => .ok ""
  | [.s one] => .ok one
  | .s first :: x :: rest => do
    let tail ← pyJoin sep (x :: rest)
    .ok (first ++ sep ++ tail)
  | _ => .error .typeError

/-!
## The authenticated client, src/mcp_amadeus/client.py

AmadeusClient holds one mutable token slot: `_access_token` (Optional[str])
and `_token_expiry` (Optional[datetime]).  The sync paths are embedded
(`_get_token_sync`, `request`, `delete_request`); the async methods are
line-for-line the same logic and are covered by the same definitions.
-/

/-- The client's mutable token slot. -/
structure TokenState where
  access_token : Option String
  token_expiry : Option Int
  deriving Repr, DecidableEq

/-- The fields the token code reads from the provider's JSON response:
data["access_token"] (required) and data.get("expires_in", 1700). -/
structure TokenResponse where
  access_token : String
  expires_in : Option Int
  deriving Repr, DecidableEq

/-- Outcome of the token-endpoint POST: a transport failure, or a response
with status, raw body, and the token fields of its parsed JSON
(none when response.json() fails or "access_token" is absent). -/
inductive FetchOutcome where
  | transportFail : String → FetchOutcome
  | response : Nat → String → Option TokenResponse → FetchOutcome
  deriving Repr, DecidableEq

namespace AmadeusClient

/-- The cache-hit guard of _get_token_sync, line 39:
`if self._access_token and self._token_expiry and datetime.now() < self._token_expiry`.
A str is truthy iff nonempty; a datetime object is always truthy. -/
def tokenCacheValid (st : TokenState) (now : Int) : Bool :=
  match st.access_token, st.token_expiry with
  | some tok, some exp => tok ≠ "" && now < exp
  | _, _ => false

/-- The refresh path of _get_token_sync (client.py lines 42-59): POST to the
token endpoint, raise_for_status, parse, store
expiry = now + (expires_in default 1700) - 60 seconds, return the token.
Result: (token or exception, token slot afterwards, whether a network call
was made --- true on every refresh branch). -/
def refresh_token (now : Int) (fetch : FetchOutcome) (st : TokenState) :
    Except PyErr String × TokenState × Bool :=
  match fetch with
  | .transportFail msg => (.error (.transportError msg), st, true)
  | .response status body data =>
    if 200 ≤ status ∧ status < 300 then
      match data with
      | some d =>
        let expiry := now + d.expires_in.getD 1700 - 60
        (.ok d.access_token, ⟨some d.access_token, some expiry⟩, true)
      | none => (.error .jsonDecodeError, st, true)
    else (.error (.httpStatusError status body), st, true)

/-- _get_token_sync (client.py lines 37-59): return the cached token while
the guard holds, otherwise refresh. -/
def get_token_sync (st : TokenState) (now : Int) (fetch : FetchOutcome) :
    Except PyErr String × TokenState × Bool :=
  match st.access_token, st.token_expiry with
  | some tok, some exp =>
    if tok ≠ "" ∧ now < exp then (.ok tok, st, false)
    else refresh_token now fetch st
  | _, _ => refresh_token now fetch st

/-- What an HTTP response to a business request carries: status code, raw
body, and the parsed JSON when response.json() would succeed. -/
structure HttpResponse where
  status : Nat
  body : String
  json : Option Json

/-- Observable result of one request/delete_request call. -/
structure ReqResult where
  /-- Returned JSON, or the exception raised. -/
  outcome : Except PyErr Json
  /-- The bearer token attached to the outbound request, when one was. -/
  tokenUsed : Option String
  /-- The token slot after the call. -/
  state : TokenState
  /-- Whether the token endpoint was contacted. -/
  tokenNetworkCall : Bool
  /-- Whether response.json() was invoked on the business response. -/
  parseAttempted : Bool

/-- AmadeusClient.request (client.py lines 87-111): get a token, send the
request with the Bearer header, raise_for_status (httpx raises on any
non-2xx status), return an empty dict on 204, otherwise parse the body. -/
def request (st : TokenState) (now : Int) (tokenFetch : FetchOutcome)
    (resp : AmadeusClient.HttpResponse) : ReqResult :=
  match get_token_sync st now tokenFetch with
  | (.error e, st1, net) => ⟨.error e, none, st1, net, false⟩
  | (.ok token, st1, net) =>
    if 200 ≤ resp.status ∧ resp.status < 300 then
      if resp.status = 204 then ⟨.ok (Json.obj []), some token, st1, net, false⟩
      else
        match resp.json with
        | some v => ⟨.ok v, some token, st1, net, true⟩
        | none => ⟨.error .jsonDecodeError, some token, st1, net, true⟩
    else ⟨.error (.httpStatusError resp.status resp.body), some token, st1, net, false⟩

/-- AmadeusClient.delete_request (client.py lines 113-128): get a token,
send DELETE; a 204 response is answered with the dict
with field "status" set to "success" BEFORE raise_for_status; any other
status goes through raise_for_status and then response.json(). -/
def delete_request (st : TokenState) (now : Int) (tokenFetch : FetchOutcome)
    (resp : AmadeusClient.HttpResponse) : ReqResult :=
  match get_token_sync st now tokenFetch with
  | (.error e, st1, net) => ⟨.error e, none, st1, net, false⟩
  | (.ok token, st1, net) =>
    if resp.status = 204 then
      ⟨.ok (Json.obj [("status", Json.s "success")]), some token, st1, net, false⟩
    else if 200 ≤ resp.status ∧ resp.status < 300 then
      match resp.json with
      | some v => ⟨.ok v, some token, st1, net, true⟩
      | none => ⟨.error .jsonDecodeError, some token, st1, net, true⟩
    else ⟨.error (.httpStatusError resp.status resp.body), some token, st1, net, false⟩

/-- A sequence of _get_token_sync calls against one client instance: each
element of the list is (call instant, what the token endpoint would answer).
Returns the final slot, the per-call results, and how many network calls
were made. -/
def runGetTokenCalls (st : TokenState) :
    List (Int × FetchOutcome) → TokenState × List (Except PyErr String) × Nat
  | [] => (st, [], 0)
  | (now, f) :: rest =>
    match get_token_sync st now f with
    | (r, st1, net) =>
      match runGetTokenCalls st1 rest with
      | (st2, rs, n) => (st2, r :: rs, (if net then 1 else 0) + n)

end AmadeusClient

/-!
## Endpoint operations, src/mcp_amadeus/operations/*.py

Each operation receives the outcome of its client.request /
client.delete_request call(s) as an Except PyErr Json parameter (plus the
caller-supplied arguments that flow into its output) and performs the
module's response shaping.  A raised request error is the .error case and,
with the single exception of Misc.get_travel_recommendations, flows through
the do-block unshaped.
-/

/-- Python truthiness of a JSON value (None, False, 0, "", [] and
empty dicts are falsy). -/
def pyTruthy : Json → Bool
  | .null => false
  | .b v => v
  | .num q => q ≠ 0
  | .s str => str ≠ ""
  | .arr items => !items.isEmpty
  | .obj fields => !fields.isEmpty

/-- Python x == "lit" on a JSON value. -/
def Json.isStr (j : Json) (lit : String) : Bool :=
  match j with
  | .s v => v = lit
  | _ => false

namespace Misc

/-- operations/misc.py get_travel_recommendations: the one operation that
catches request failures (bare except around the client.request call,
lines 15-18) and degrades them to a one-element informational list;
successful payloads are shaped and truncated to 15 entries. -/
def get_travel_recommendations (r : Except PyErr Json) : List Json :=
  match r with
  | .error e =>
    [Json.obj [("message", Json.s ("Recommendations not available: " ++ e.str))]]
  | .ok data =>
    ((data.get "data" (Json.arr [])).asArr.take 15).map (fun poi => Json.obj [
      ("name", poi.getN "name"),
      ("category", poi.getN "category"),
      ("tags", poi.get "tags" (Json.arr [])),
      ("rank", poi.getN "rank"),
      ("location", poi.getN "geoCode")])

/-- operations/misc.py get_recommended_destinations. -/
def get_recommended_destinations (origin_cities : String)
    (r : Except PyErr Json) : Except PyErr Json := do
  let data ← r
  let destinations := ((data.get "data" (Json.arr [])).asArr.take 15).map
    (fun dest => Json.obj [
      ("destination", dest.getN "name"),
      ("iata_code", dest.getN "iataCode"),
      ("country", (dest.get "address" (Json.obj [])).getN "countryName"),
      ("score", dest.getN "score"),
      ("type", dest.getN "subType"),
      ("location", dest.getN "geoCode")])
  .ok (Json.obj [("based_on", Json.s origin_cities),
                 ("recommendations", Json.arr destinations)])

/-- operations/misc.py parse_trip_document. -/
def parse_trip_document (r : Except PyErr Json) : Except PyErr Json := do
  let data ← r
  let result := data.get "data" (Json.obj [])
  .ok (Json.obj [
    ("job_id", result.getN "id"),
    ("status", result.getN "status"),
    ("trips", result.get "trips" (Json.arr []))])

/-- operations/misc.py get_parsed_trip. -/
def get_parsed_trip (r : Except PyErr Json) : Except PyErr Json := do
  let data ← r
  let result := data.get "data" (Json.obj [])
  .ok (Json.obj [
    ("document_id", result.getN "id"),
    ("status", result.getN "status"),
    ("trips", result.get "trips" (Json.arr []))])

end Misc

namespace Airports

/-- operations/airports.py search_airports. -/
def search_airports (r : Except PyErr Json) : Except PyErr (List Json) := do
  let data ← r
  .ok (((data.get "data" (Json.arr [])).asArr.take 10).map (fun loc => Json.obj [
    ("iata_code", loc.getN "iataCode"),
    ("name", loc.getN "name"),
    ("city", (loc.get "address" (Json.obj [])).getN "cityName"),
    ("country", (loc.get "address" (Json.obj [])).getN "countryName")]))

/-- operations/airports.py search_cities. -/
def search_cities (r : Except PyErr Json) : Except PyErr (List Json) := do
  let data ← r
  .ok (((data.get "data" (Json.arr [])).asArr.take 10).map (fun loc => Json.obj [
    ("iata_code", loc.getN "iataCode"),
    ("name", loc.getN "name"),
    ("country", (loc.get "address" (Json.obj [])).getN "countryName")]))

/-- operations/airports.py get_airport_routes. -/
def get_airport_routes (r : Except PyErr Json) : Except PyErr (List Json) := do
  let data ← r
  .ok ((data.get "data" (Json.arr [])).asArr.map (fun dest => Json.obj [
    ("destination", dest.getN "destination"),
    ("name", dest.getN "name")]))

/-- operations/airports.py get_nearest_airports. -/
def get_nearest_airports (r : Except PyErr Json) : Except PyErr (List Json) := do
  let data ← r
  .ok ((data.get "data" (Json.arr [])).asArr.map (fun airport => Json.obj [
    ("iata_code", airport.getN "iataCode"),
    ("name", airport.getN "name"),
    ("city", (airport.get "address" (Json.obj [])).getN "cityName"),
    ("country", (airport.get "address" (Json.obj [])).getN "countryName"),
    ("distance_km", (airport.get "distance" (Json.obj [])).getN "value"),
    ("location", airport.getN "geoCode")]))

/-- operations/airports.py get_airline_destinations. -/
def get_airline_destinations (r : Except PyErr Json) : Except PyErr (List Json) := do
  let data ← r
  .ok ((data.get "data" (Json.arr [])).asArr.map (fun dest => Json.obj [
    ("city", dest.getN "name"),
    ("iata_code", dest.getN "iataCode"),
    ("type", dest.getN "subtype")]))

/-- operations/airports.py get_airport_on_time_performance. -/
def get_airport_on_time_performance (airport_code date : String)
    (r : Except PyErr Json) : Except PyErr Json := do
  let data ← r
  let result := data.get "data" (Json.obj [])
  .ok (Json.obj [
    ("airport", Json.s airport_code.toUpper),
    ("date", Json.s date),
    ("on_time_probability", result.getN "probability"),
    ("result", result.getN "result")])

end Airports

namespace Activities

/-- operations/activities.py search_activities. -/
def search_activities (r : Except PyErr Json) : Except PyErr (List Json) := do
  let data ← r
  .ok (((data.get "data" (Json.arr [])).asArr.take 20).map (fun activity => Json.obj [
    ("id", activity.getN "id"),
    ("name", activity.getN "name"),
    ("description", activity.getN "shortDescription"),
    ("rating", activity.getN "rating"),
    ("booking_link", activity.getN "bookingLink"),
    ("price", activity.getN "price"),
    ("pictures", Json.arr ((activity.get "pictures" (Json.arr [])).asArr.take 3))]))

/-- operations/activities.py get_activity_details. -/
def get_activity_details (r : Except PyErr Json) : Except PyErr Json := do
  let data ← r
  let activity := data.get "data" (Json.obj [])
  .ok (Json.obj [
    ("id", activity.getN "id"),
    ("name", activity.getN "name"),
    ("description", activity.getN "description"),
    ("rating", activity.getN "rating"),
    ("reviews_count", activity.getN "reviewsCount"),
    ("booking_link", activity.getN "bookingLink"),
    ("price", activity.getN "price"),
    ("duration", activity.getN "duration"),
    ("categories", activity.getN "categories"),
    ("pictures", activity.getN "pictures")])

end Activities

namespace Flights

/-- The inner segment shaping of operations/flights.py search_flights. -/
def shape_segment (seg : Json) : Json :=
  Json.obj [
    ("departure", Json.obj [
      ("airport", (seg.get "departure" (Json.obj [])).getN "iataCode"),
      ("time", (seg.get "departure" (Json.obj [])).getN "at")]),
    ("arrival", Json.obj [
      ("airport", (seg.get "arrival" (Json.obj [])).getN "iataCode"),
      ("time", (seg.get "arrival" (Json.obj [])).getN "at")]),
    ("carrier", seg.getN "carrierCode"),
    ("flight_number", seg.getN "number"),
    ("duration", seg.getN "duration")]

/-- The itinerary shaping of operations/flights.py search_flights. -/
def shape_itinerary (itin : Json) : Json :=
  Json.obj [
    ("duration", itin.getN "duration"),
    ("segments", Json.arr ((itin.get "segments" (Json.arr [])).asArr.map shape_segment))]

/-- operations/flights.py search_flights. -/
def search_flights (r : Except PyErr Json) : Except PyErr (List Json) := do
  let data ← r
  .ok ((data.get "data" (Json.arr [])).asArr.map (fun offer => Json.obj [
    ("id", offer.getN "id"),
    ("price", Json.obj [
      ("total", (offer.get "price" (Json.obj [])).getN "total"),
      ("currency", (offer.get "price" (Json.obj [])).getN "currency")]),
    ("itineraries",
      Json.arr ((offer.get "itineraries" (Json.arr [])).asArr.map shape_itinerary)),
    ("seats_available", offer.getN "numberOfBookableSeats")]))

/-- operations/flights.py get_flight_price: offers defaults to a
one-element list holding an empty dict, and both output fields fall back
when the list is empty. -/
def get_flight_price (r : Except PyErr Json) : Except PyErr Json := do
  let data ← r
  let result := data.get "data" (Json.obj [])
  let offers := (result.get "flightOffers" (Json.arr [Json.obj []])).asArr
  match offers with
  | [] => .ok (Json.obj [("total_price", Json.null), ("price_breakdown", Json.arr [])])
  | o :: _ => .ok (Json.obj [
      ("total_price", (o.get "price" (Json.obj [])).getN "total"),
      ("price_breakdown", o.get "travelerPricings" (Json.arr []))])

/-- operations/flights.py search_flight_inspiration: shapes and truncates
the destination list to its first 20 entries. -/
def search_flight_inspiration (r : Except PyErr Json) : Except PyErr (List Json) := do
  let data ← r
  .ok (((data.get "data" (Json.arr [])).asArr.take 20).map (fun dest => Json.obj [
    ("destination", dest.getN "destination"),
    ("departure_date", dest.getN "departureDate"),
    ("return_date", dest.getN "returnDate"),
    ("price", (dest.get "price" (Json.obj [])).getN "total")]))

/-- operations/flights.py search_flight_availability. -/
def search_flight_availability (r : Except PyErr Json) : Except PyErr (List Json) := do
  let data ← r
  .ok (((data.get "data" (Json.arr [])).asArr.take 10).map (fun avail => Json.obj [
    ("id", avail.getN "id"),
    ("segments", Json.arr ((avail.get "segments" (Json.arr [])).asArr.map
      (fun seg => Json.obj [
        ("departure", seg.getN "departure"),
        ("arrival", seg.getN "arrival"),
        ("carrier", seg.getN "carrierCode"),
        ("flight_number", seg.getN "number"),
        ("aircraft", (seg.get "aircraft" (Json.obj [])).getN "code"),
        ("available_classes", seg.get "availabilityClasses" (Json.arr []))])))]))

/-- operations/flights.py get_branded_fares: fare details come from the
first traveler pricing when the pricings list is nonempty. -/
def get_branded_fares (r : Except PyErr Json) : Except PyErr (List Json) := do
  let data ← r
  .ok ((data.get "data" (Json.arr [])).asArr.map (fun offer =>
    let pricings := (offer.get "travelerPricings" (Json.arr [Json.obj []])).asArr
    let segs : List Json := match pricings with
      | [] => []
      | p :: _ => (p.get "fareDetailsBySegment" (Json.arr [])).asArr
    let fare_details := segs.map
        (fun segment => Json.obj [
          ("segment_id", segment.getN "segmentId"),
          ("cabin", segment.getN "cabin"),
          ("fare_basis", segment.getN "fareBasis"),
          ("branded_fare", segment.getN "brandedFare"),
          ("included_bags", segment.getN "includedCheckedBags"),
          ("amenities", segment.get "amenities" (Json.arr []))])
    Json.obj [
      ("offer_id", offer.getN "id"),
      ("price", offer.getN "price"),
      ("fare_details", Json.arr fare_details)]))

/-- The per-seat shaping of operations/flights.py get_seatmap.  The price
reads the first traveler pricing when one exists (seat payloads with a
truthy non-list travelerPricing would raise in Python; headD stands in for
the [0] index, see the header note). -/
def shape_seat (seat : Json) : Json :=
  Json.obj [
    ("number", seat.getN "number"),
    ("cabin", seat.getN "cabin"),
    ("available", Json.b (match seat.getN "travelerPricing" with
      | Json.null => false
      | _ => true)),
    ("characteristics", seat.get "characteristicsCodes" (Json.arr [])),
    ("price", if pyTruthy (seat.getN "travelerPricing") then
        ((seat.get "travelerPricing" (Json.arr [Json.obj []])).asArr.headD
          (Json.obj [])).getN "price"
      else Json.null)]

/-- operations/flights.py get_seatmap. -/
def get_seatmap (r : Except PyErr Json) : Except PyErr (List Json) := do
  let data ← r
  .ok ((data.get "data" (Json.arr [])).asArr.map (fun seatmap => Json.obj [
    ("flight_id", seatmap.getN "flightOfferId"),
    ("segment_id", seatmap.getN "segmentId"),
    ("aircraft", seatmap.getN "aircraft"),
    ("decks", Json.arr ((seatmap.get "decks" (Json.arr [])).asArr.map
      (fun deck => Json.obj [
        ("deck_type", deck.getN "deckType"),
        ("deck_configuration", deck.getN "deckConfiguration"),
        ("seats", Json.arr (((deck.get "seats" (Json.arr [])).asArr.map
          shape_seat).take 50))])))]))

/-- operations/flights.py get_flight_status: departure is the first flight
point when any exist, arrival the last when there are at least two. -/
def get_flight_status (carrier_code flight_number : String)
    (r : Except PyErr Json) : Except PyErr (List Json) := do
  let data ← r
  .ok ((data.get "data" (Json.arr [])).asArr.map (fun flight =>
    let segments := (flight.get "flightPoints" (Json.arr [])).asArr
    let departure := match segments with
      | [] => Json.obj []
      | x :: _ => x
    let arrival := if 1 < segments.length then segments.getLastD (Json.obj [])
      else Json.obj []
    Json.obj [
      ("flight", Json.s (carrier_code.toUpper ++ flight_number)),
      ("departure", Json.obj [
        ("airport", departure.getN "iataCode"),
        ("terminal", (departure.get "departure" (Json.obj [])).getN "terminal"),
        ("scheduled", (departure.get "departure" (Json.obj [])).getN "at")]),
      ("arrival", Json.obj [
        ("airport", arrival.getN "iataCode"),
        ("terminal", (arrival.get "arrival" (Json.obj [])).getN "terminal"),
        ("scheduled", (arrival.get "arrival" (Json.obj [])).getN "at")]),
      ("aircraft", (flight.get "flightDesignator" (Json.obj [])).getN "aircraftType"),
      ("duration", flight.getN "duration")]))

end Flights

namespace Hotels

/-- The key of the min() call in operations/hotels.py search_hotels line 51:
float(x.get("price", dict()).get("total", 999999)). -/
def offer_key (x : Json) : Except PyErr ℚ :=
  pyFloat ((x.get "price" (Json.obj [])).get "total" (Json.num 999999))

/-- The key of the sorted() call in operations/hotels.py search_hotels
line 66: float(x.get("price", dict()).get("total", 0)). -/
def sort_key (x : Json) : Except PyErr ℚ :=
  pyFloat ((x.get "price" (Json.obj [])).get "total" (Json.num 0))

/-- Python min(best :: rest, key=key), with the key of best already
evaluated to bk: scan left to right, keep the first element whose key is
strictly smaller than the current minimum's. -/
def py_min_by (key : Json → Except PyErr ℚ) (best : Json) (bk : ℚ) :
    List Json → Except PyErr Json
  | [] => .ok best
  | x :: xs => do
    let kx ← key x
    if kx < bk then py_min_by key x kx xs else py_min_by key best bk xs

/-- Python sorted(xs, key=key): evaluate every key once, then a stable
ascending sort on the keys (insertion sort is stable, like CPython's
sort). -/
def py_sorted_by (key : Json → Except PyErr ℚ) (xs : List Json) :
    Except PyErr (List Json) := do
  let pairs ← xs.mapM (fun x => do
    let k ← key x
    pure (k, x))
  .ok ((pairs.insertionSort (fun p q => p.1 ≤ q.1)).map (fun p => p.2))

/-- The per-hotel dict built in operations/hotels.py search_hotels
lines 53-65 from the hotel info and its cheapest offer. -/
def shape_hotel (hotel_info cheapest : Json) : Json :=
  Json.obj [
    ("hotel_id", hotel_info.getN "hotelId"),
    ("name", hotel_info.getN "name"),
    ("rating", hotel_info.getN "rating"),
    ("latitude", hotel_info.getN "latitude"),
    ("longitude", hotel_info.getN "longitude"),
    ("price", Json.obj [
      ("total", (cheapest.get "price" (Json.obj [])).getN "total"),
      ("currency", (cheapest.get "price" (Json.obj [])).getN "currency")]),
    ("room_type",
      ((cheapest.get "room" (Json.obj [])).get "typeEstimated" (Json.obj [])).getN
        "category"),
    ("offer_id", cheapest.getN "id")]

/-- One iteration of the result-building loop of search_hotels lines 46-65,
for a hotel whose (truthy) offers list has been taken apart: compute the
cheapest offer by min() and cons the shaped dict onto the remaining
entries.  (A truthy non-list offers value would raise inside min() in
Python; modelled as a TypeError.) -/
def build_entry_cons (hotel_info : Json) :
    List Json → Except PyErr (List Json) → Except PyErr (List Json)
  | [], _ => .error .typeError
  | o :: os, others => do
    let k0 ← offer_key o
    let cheapest ← py_min_by offer_key o k0 os
    let rest ← others
    .ok (shape_hotel hotel_info cheapest :: rest)

/-- The result-building loop of search_hotels lines 45-65: hotels whose
offers list is falsy are skipped, every other hotel contributes the shaped
dict of its cheapest offer, in payload order. -/
def build_entries : List Json → Except PyErr (List Json)
  | [] => .ok []
  | hotel :: rest =>
    let hotel_info := hotel.get "hotel" (Json.obj [])
    let offers := hotel.get "offers" (Json.arr [])
    if pyTruthy offers then
      build_entry_cons hotel_info offers.asArr (build_entries rest)
    else
      build_entries rest

/-- operations/hotels.py search_hotels: the hotels-by-city request (r1)
gives the hotel ids (truncated to max_results); when none are found the
empty list is returned without issuing the hotel-offers request (r2);
otherwise the ids are joined into the second request's params, the offers
payload is shaped per hotel and sorted by ascending price. -/
def search_hotels (max_results : ℕ) (r1 r2 : Except PyErr Json) :
    Except PyErr (List Json) := do
  let hotels_data ← r1
  let hotel_ids := ((hotels_data.get "data" (Json.arr [])).asArr.take max_results).map
    (fun h => h.getN "hotelId")
  if hotel_ids.isEmpty then
    return []
  let _joined ← pyJoin "," hotel_ids
  let offers_data ← r2
  let entries ← build_entries (offers_data.get "data" (Json.arr [])).asArr
  py_sorted_by sort_key entries

/-- operations/hotels.py get_hotel_details. -/
def get_hotel_details (r : Except PyErr Json) : Except PyErr Json := do
  let data ← r
  match (data.get "data" (Json.arr [])).asArr with
  | [] => .ok (Json.obj [("message", Json.s "Hotel not found")])
  | hotel :: _ =>
    let hotel_info := hotel.get "hotel" (Json.obj [])
    .ok (Json.obj [
      ("hotel_id", hotel_info.getN "hotelId"),
      ("name", hotel_info.getN "name"),
      ("description", (hotel_info.get "description" (Json.obj [])).getN "text"),
      ("rating", hotel_info.getN "rating"),
      ("address", hotel_info.getN "address"),
      ("contact", hotel_info.getN "contact"),
      ("amenities", hotel_info.get "amenities" (Json.arr [])),
      ("offers", Json.arr ((hotel.get "offers" (Json.arr [])).asArr.map
        (fun offer => Json.obj [
          ("id", offer.getN "id"),
          ("check_in", offer.getN "checkInDate"),
          ("check_out", offer.getN "checkOutDate"),
          ("room", offer.getN "room"),
          ("price", offer.getN "price"),
          ("cancellation", (offer.get "policies" (Json.obj [])).getN
            "cancellation")])))])

/-- operations/hotels.py search_hotel_by_name. -/
def search_hotel_by_name (r : Except PyErr Json) : Except PyErr (List Json) := do
  let data ← r
  .ok ((data.get "data" (Json.arr [])).asArr.map (fun hotel => Json.obj [
    ("hotel_id", hotel.getN "hotelId"),
    ("name", hotel.getN "name"),
    ("city", (hotel.get "address" (Json.obj [])).getN "cityName"),
    ("country", (hotel.get "address" (Json.obj [])).getN "countryCode"),
    ("location", hotel.getN "geoCode")]))

/-- operations/hotels.py get_hotel_ratings. -/
def get_hotel_ratings (r : Except PyErr Json) : Except PyErr (List Json) := do
  let data ← r
  .ok ((data.get "data" (Json.arr [])).asArr.map (fun hotel => Json.obj [
    ("hotel_id", hotel.getN "hotelId"),
    ("overall_rating", hotel.getN "overallRating"),
    ("number_of_reviews", hotel.getN "numberOfReviews"),
    ("sentiment_scores", Json.obj
      ((["location", "comfort", "service", "staff", "internet", "food",
         "facilities"]).map (fun k =>
        (k, (hotel.get "sentimentScores" (Json.obj [])).getN k))))]))

/-- operations/hotels.py book_hotel. -/
def book_hotel (r : Except PyErr Json) : Except PyErr Json := do
  let data ← r
  let result := if pyTruthy (data.getN "data") then
      (data.get "data" (Json.arr [Json.obj []])).asArr.headD (Json.obj [])
    else Json.obj []
  .ok (Json.obj [
    ("booking_id", result.getN "id"),
    ("provider_confirmation", result.getN "providerConfirmationId"),
    ("status", result.getN "bookingStatus")])

end Hotels

namespace Orders

/-- operations/orders.py create_flight_order. -/
def create_flight_order (r : Except PyErr Json) : Except PyErr Json := do
  let data ← r
  let result := data.get "data" (Json.obj [])
  let records := (result.get "associatedRecords" (Json.arr [Json.obj []])).asArr
  .ok (Json.obj [
    ("order_id", result.getN "id"),
    ("booking_reference", match records with
      | [] => Json.null
      | rec :: _ => rec.getN "reference"),
    ("creation_date", result.getN "creationDate"),
    ("travelers", result.getN "travelers"),
    ("flight_offers", result.getN "flightOffers")])

/-- operations/orders.py get_flight_order. -/
def get_flight_order (r : Except PyErr Json) : Except PyErr Json := do
  let data ← r
  let result := data.get "data" (Json.obj [])
  let records := (result.get "associatedRecords" (Json.arr [Json.obj []])).asArr
  .ok (Json.obj [
    ("order_id", result.getN "id"),
    ("booking_reference", match records with
      | [] => Json.null
      | rec :: _ => rec.getN "reference"),
    ("status", result.getN "status"),
    ("travelers", result.getN "travelers"),
    ("flight_offers", result.getN "flightOffers"),
    ("ticketing", result.getN "ticketingAgreement")])

/-- operations/orders.py cancel_flight_order: shapes the outcome of
client.delete_request (r). -/
def cancel_flight_order (order_id : String) (r : Except PyErr Json) :
    Except PyErr Json := do
  let result ← r
  if (result.getN "status").isStr "success" then
    .ok (Json.obj [("message",
      Json.s ("Order " ++ order_id ++ " cancelled successfully"))])
  else
    .ok (Json.obj [("message", Json.s "Cancellation processed"),
                   ("response", result)])

end Orders

namespace Transfers

/-- operations/transfers.py search_transfers. -/
def search_transfers (r : Except PyErr Json) : Except PyErr (List Json) := do
  let data ← r
  .ok (((data.get "data" (Json.arr [])).asArr.take 10).map (fun offer => Json.obj [
    ("offer_id", offer.getN "id"),
    ("transfer_type", offer.getN "transferType"),
    ("vehicle", offer.getN "vehicle"),
    ("price", offer.getN "quotation"),
    ("duration", offer.getN "duration"),
    ("cancellation_policy", offer.getN "cancellationRules")]))

/-- operations/transfers.py book_transfer. -/
def book_transfer (r : Except PyErr Json) : Except PyErr Json := do
  let data ← r
  let result := data.get "data" (Json.obj [])
  .ok (Json.obj [
    ("order_id", result.getN "id"),
    ("confirmation_number", result.getN "confirmationNumber"),
    ("status", result.getN "status")])

/-- operations/transfers.py get_transfer_order. -/
def get_transfer_order (r : Except PyErr Json) : Except PyErr Json := do
  let data ← r
  let result := data.get "data" (Json.obj [])
  .ok (Json.obj [
    ("order_id", result.getN "id"),
    ("confirmation_number", result.getN "confirmationNumber"),
    ("status", result.getN "status"),
    ("transfer_details", result.getN "transferDetails"),
    ("passengers", result.getN "passengers")])

/-- operations/transfers.py cancel_transfer: shapes the outcome of
client.delete_request (r). -/
def cancel_transfer (order_id : String) (r : Except PyErr Json) :
    Except PyErr Json := do
  let result ← r
  if (result.getN "status").isStr "success" then
    .ok (Json.obj [("message",
      Json.s ("Transfer " ++ order_id ++ " cancelled successfully"))])
  else
    .ok (Json.obj [("message", Json.s "Cancellation processed"),
                   ("response", result)])

end Transfers

namespace Analytics

/-- operations/analytics.py get_busiest_travel_period.  The result echoes
the raw direction argument (the request params use its uppercase). -/
def get_busiest_travel_period (city_code year direction : String)
    (r : Except PyErr Json) : Except PyErr Json := do
  let data ← r
  let periods := (data.get "data" (Json.arr [])).asArr.map (fun period => Json.obj [
    ("period", period.getN "period"),
    ("traveler_percentage", (period.get "analytics" (Json.obj [])).getN "travelers")])
  .ok (Json.obj [
    ("city", Json.s city_code.toUpper),
    ("year", Json.s year),
    ("direction", Json.s direction),
    ("periods", Json.arr periods)])

/-- operations/analytics.py get_most_booked_destinations. -/
def get_most_booked_destinations (origin_city year : String)
    (r : Except PyErr Json) : Except PyErr Json := do
  let data ← r
  let destinations := (data.get "data" (Json.arr [])).asArr.map (fun dest => Json.obj [
    ("destination", dest.getN "destination"),
    ("flights_score", (dest.get "analytics" (Json.obj [])).getN "flights"),
    ("travelers_score", (dest.get "analytics" (Json.obj [])).getN "travelers")])
  .ok (Json.obj [
    ("origin", Json.s origin_city.toUpper),
    ("year", Json.s year),
    ("destinations", Json.arr destinations)])

/-- operations/analytics.py get_most_traveled_destinations. -/
def get_most_traveled_destinations (origin_city year : String)
    (r : Except PyErr Json) : Except PyErr Json := do
  let data ← r
  let destinations := (data.get "data" (Json.arr [])).asArr.map (fun dest => Json.obj [
    ("destination", dest.getN "destination"),
    ("flights_score", (dest.get "analytics" (Json.obj [])).getN "flights"),
    ("travelers_score", (dest.get "analytics" (Json.obj [])).getN "travelers")])
  .ok (Json.obj [
    ("origin", Json.s origin_city.toUpper),
    ("year", Json.s year),
    ("destinations", Json.arr destinations)])

/-- operations/analytics.py analyze_flight_price. -/
def analyze_flight_price (origin destination departure_date : String)
    (return_date : Option String) (r : Except PyErr Json) : Except PyErr Json := do
  let data ← r
  let result := data.get "data" (Json.obj [])
  .ok (Json.obj [
    ("route", Json.s (origin.toUpper ++ " -> " ++ destination.toUpper)),
    ("departure_date", Json.s departure_date),
    ("return_date", match return_date with
      | some d => Json.s d
      | none => Json.null),
    ("average_price", (result.get "analytics" (Json.obj [])).getN "averagePrice"),
    ("price_metrics", result.getN "analytics")])

/-- operations/analytics.py predict_flight_delay. -/
def predict_flight_delay (origin destination carrier_code flight_number : String)
    (r : Except PyErr Json) : Except PyErr Json := do
  let data ← r
  let result := data.get "data" (Json.obj [])
  .ok (Json.obj [
    ("flight", Json.s (carrier_code.toUpper ++ flight_number)),
    ("route", Json.s (origin.toUpper ++ " -> " ++ destination.toUpper)),
    ("prediction_result", result.getN "result"),
    ("delay_probabilities", result.getN "probability")])

/-- operations/analytics.py predict_flight_choice. -/
def predict_flight_choice (r : Except PyErr Json) : Except PyErr (List Json) := do
  let data ← r
  .ok ((data.get "data" (Json.arr [])).asArr.map (fun offer => Json.obj [
    ("offer_id", offer.getN "id"),
    ("choice_probability", (offer.get "choicePrediction" (Json.obj [])).getN "score"),
    ("prediction_factors",
      (offer.get "choicePrediction" (Json.obj [])).getN "predictionFactors")]))

/-- operations/analytics.py predict_trip_purpose. -/
def predict_trip_purpose (origin destination departure_date return_date : String)
    (r : Except PyErr Json) : Except PyErr Json := do
  let data ← r
  let result := data.get "data" (Json.obj [])
  .ok (Json.obj [
    ("route", Json.s (origin.toUpper ++ " -> " ++ destination.toUpper)),
    ("dates", Json.s (departure_date ++ " to " ++ return_date)),
    ("predicted_purpose", result.getN "result"),
    ("business_probability", (result.get "probabilities" (Json.obj [])).getN "BUSINESS"),
    ("leisure_probability", (result.get "probabilities" (Json.obj [])).getN "LEISURE")])

end Analytics

/-!
## Helper lemmas about the token manager and executors
-/

namespace AmadeusClient

lemma get_token_hit (tok : String) (exp now : Int) (f : FetchOutcome)
    (h1 : tok ≠ "") (h2 : now < exp) :
    get_token_sync ⟨some tok, some exp⟩ now f = (.ok tok, ⟨some tok, some exp⟩, false) := by
  simp [get_token_sync, h1, h2]

lemma get_token_miss (st : TokenState) (now : Int) (f : FetchOutcome)
    (h : tokenCacheValid st now = false) :
    get_token_sync st now f = refresh_token now f st := by
  obtain ⟨a, x⟩ := st
  cases a <;> cases x <;>
    simp_all [get_token_sync, tokenCacheValid]

lemma request_state (st : TokenState) (now : Int) (f : FetchOutcome)
    (resp : AmadeusClient.HttpResponse) :
    (request st now f resp).state = (get_token_sync st now f).2.1 := by
  rcases hgt : get_token_sync st now f with ⟨r, st1, net⟩
  cases r with
  | error e => simp [request, hgt]
  | ok tok =>
    simp only [request, hgt]
    split
    · split
      · rfl
      · cases hjson : resp.json <;> simp [hjson]
    · rfl

lemma request_tokenUsed_ok (st : TokenState) (now : Int) (f : FetchOutcome)
    (resp : AmadeusClient.HttpResponse) (tok : String)
    (h : (request st now f resp).tokenUsed = some tok) :
    (get_token_sync st now f).1 = .ok tok := by
  rcases hgt : get_token_sync st now f with ⟨r, st1, net⟩
  cases r with
  | error e => simp [request, hgt] at h
  | ok t =>
    simp only [request, hgt] at h ⊢
    split at h
    · split at h
      · simpa using h
      · rcases hjson : resp.json with _ | v <;> simp [hjson] at h <;> simp [h]
    · simpa using h

lemma get_token_success_future (st : TokenState) (now : Int) (f : FetchOutcome)
    (tok : String)
    (hlife : ∀ s b d, f = .response s b (some d) → 60 < d.expires_in.getD 1700)
    (h : (get_token_sync st now f).1 = .ok tok) :
    ∃ e, (get_token_sync st now f).2.1.token_expiry = some e ∧ now < e := by
  by_cases hvalid : tokenCacheValid st now = true
  · obtain ⟨a, x⟩ := st
    cases a <;> cases x <;> simp [tokenCacheValid] at hvalid
    rename_i tok' exp
    obtain ⟨h1, h2⟩ := hvalid
    rw [get_token_hit tok' exp now f h1 h2]
    exact ⟨exp, rfl, h2⟩
  · rw [get_token_miss st now f (by simpa using hvalid)] at h ⊢
    cases f with
    | transportFail msg => simp [refresh_token] at h
    | response status body d =>
      by_cases h2xx : 200 ≤ status ∧ status < 300
      · cases d with
        | none => simp [refresh_token, h2xx] at h
        | some td =>
          have hl := hlife status body td rfl
          refine ⟨now + td.expires_in.getD 1700 - 60, ?_, by omega⟩
          simp [refresh_token, h2xx]
      · simp [refresh_token, h2xx] at h

end AmadeusClient

lemma runGetTokenCalls_all_hit (tok : String) (exp : Int)
    (calls : List (Int × FetchOutcome)) (h1 : tok ≠ "")
    (hall : ∀ c ∈ calls, c.1 < exp) :
    AmadeusClient.runGetTokenCalls ⟨some tok, some exp⟩ calls =
      (⟨some tok, some exp⟩, calls.map (fun _ => .ok tok), 0) := by
  induction calls with
  | nil => rfl
  | cons c rest ih =>
    obtain ⟨now, f⟩ := c
    have hc : now < exp := hall (now, f) (List.mem_cons_self _ _)
    have hrest : ∀ c ∈ rest, c.1 < exp := fun c hm => hall c (List.mem_cons_of_mem _ hm)
    simp only [AmadeusClient.runGetTokenCalls,
      AmadeusClient.get_token_hit tok exp now f h1 hc, ih hrest, List.map_cons]
    rfl

/-- C1: when the cache guard fails, _get_token_sync refreshes. A successful
provider response (2xx, parsed fields) makes the call return its
access_token, make exactly one token network call, and store
expiry = now + expires_in - 60 (expires_in defaulting to 1700 when absent);
for every explicit expires_in greater than 60 the stored cache window
expiry - now has length expires_in - 60. -/
theorem claim_C1_token_refresh (st : TokenState) (now : Int)
    (status : Nat) (body : String) (d : TokenResponse)
    (hmiss : AmadeusClient.tokenCacheValid st now = false)
    (hok : 200 ≤ status ∧ status < 300) :
    AmadeusClient.get_token_sync st now (.response status body (some d)) =
      (.ok d.access_token,
        ⟨some d.access_token, some (now + d.expires_in.getD 1700 - 60)⟩, true) ∧
    (∀ n : Int, d.expires_in = some n → 60 < n →
      (now + d.expires_in.getD 1700 - 60) - now = n - 60) := by
  constructor
  · rw [AmadeusClient.get_token_miss st now _ hmiss]
    simp [AmadeusClient.refresh_token, hok]
  · intro n hn _
    rw [hn]
    simp
    omega

/-- Witness for C1 at a concrete input: empty cache at time 1000, provider
answers 200 with access_token "tok" and expires_in 1799. -/
theorem claim_C1_token_refresh_witness :
    AmadeusClient.get_token_sync ⟨none, none⟩ 1000
        (.response 200 "" (some ⟨"tok", some 1799⟩)) =
      (.ok "tok", ⟨some "tok", some 2739⟩, true) ∧ (2739 - 1000 : Int) = 1799 - 60 := by
  have h := claim_C1_token_refresh ⟨none, none⟩ 1000 200 "" ⟨"tok", some 1799⟩
    (by decide) (by decide)
  exact ⟨h.1, h.2 1799 rfl (by decide)⟩

/-- C2: while a (nonempty) cached token exists and now is strictly before
the stored expiry, _get_token_sync returns it unchanged with no network
call and an unchanged slot; consequently any sequence of calls whose
instants all lie inside the validity window returns that same token every
time with zero network calls. -/
theorem claim_C2_cache_hit :
    (∀ (st : TokenState) (now : Int) (f : FetchOutcome) (tok : String) (exp : Int),
      st.access_token = some tok → tok ≠ "" → st.token_expiry = some exp → now < exp →
      AmadeusClient.get_token_sync st now f = (.ok tok, st, false)) ∧
    (∀ (tok : String) (exp : Int) (calls : List (Int × FetchOutcome)), tok ≠ "" →
      (∀ c ∈ calls, c.1 < exp) →
      AmadeusClient.runGetTokenCalls ⟨some tok, some exp⟩ calls =
        (⟨some tok, some exp⟩, calls.map (fun _ => .ok tok), 0)) := by
  constructor
  · intro st now f tok exp ha he hx hlt
    obtain ⟨a, x⟩ := st
    cases ha
    cases hx
    exact AmadeusClient.get_token_hit tok exp now f he hlt
  · intro tok exp calls h1 hall
    exact runGetTokenCalls_all_hit tok exp calls h1 hall

/-- Witness for C2 at a concrete input: cached token "t" valid until 100,
two calls at times 5 and 7 against a token endpoint that would fail ---
both return "t" and no network call happens. -/
theorem claim_C2_cache_hit_witness :
    AmadeusClient.get_token_sync ⟨some "t", some 100⟩ 5 (.transportFail "down") =
      (.ok "t", ⟨some "t", some 100⟩, false) ∧
    AmadeusClient.runGetTokenCalls ⟨some "t", some 100⟩
        [(5, .transportFail "down"), (7, .transportFail "down")] =
      (⟨some "t", some 100⟩, [.ok "t", .ok "t"], 0) := by
  constructor
  · exact claim_C2_cache_hit.1 ⟨some "t", some 100⟩ 5 (.transportFail "down") "t" 100
      rfl (by decide) rfl (by decide)
  · have h := claim_C2_cache_hit.2 "t" 100
      [(5, .transportFail "down"), (7, .transportFail "down")] (by decide)
      (by intro c hc; fin_cases hc <;> decide)
    simpa using h

/-- C3: on a 204 response (once a token was obtained), request returns the
empty object without invoking response.json(), while delete_request
returns the object with field "status" set to "success", also without
parsing. -/
theorem claim_C3_no_content (st : TokenState) (now : Int) (f : FetchOutcome)
    (resp : AmadeusClient.HttpResponse) (tok : String)
    (htok : (AmadeusClient.get_token_sync st now f).1 = .ok tok)
    (h204 : resp.status = 204) :
    (AmadeusClient.request st now f resp).outcome = .ok (Json.obj []) ∧
    (AmadeusClient.request st now f resp).parseAttempted = false ∧
    (AmadeusClient.delete_request st now f resp).outcome =
      .ok (Json.obj [("status", Json.s "success")]) ∧
    (AmadeusClient.delete_request st now f resp).parseAttempted = false := by
  rcases hgt : AmadeusClient.get_token_sync st now f with ⟨r, st1, net⟩
  rw [hgt] at htok
  simp only at htok
  subst htok
  refine ⟨?_, ?_, ?_, ?_⟩ <;>
    simp [AmadeusClient.request, AmadeusClient.delete_request, hgt, h204]

/-- Witness for C3 at a concrete input: valid cached token, 204 response. -/
theorem claim_C3_no_content_witness :
    (AmadeusClient.request ⟨some "t", some 100⟩ 5 (.transportFail "down")
      ⟨204, "", none⟩).outcome = .ok (Json.obj []) ∧
    (AmadeusClient.delete_request ⟨some "t", some 100⟩ 5 (.transportFail "down")
      ⟨204, "", none⟩).outcome = .ok (Json.obj [("status", Json.s "success")]) := by
  have h := claim_C3_no_content ⟨some "t", some 100⟩ 5 (.transportFail "down")
    ⟨204, "", none⟩ "t" (by rw [AmadeusClient.get_token_hit "t" 100 5 _ (by decide) (by decide)])
    rfl
  exact ⟨h.1, h.2.2.1⟩

/-- C4: on any non-2xx response (once a token was obtained), request raises
the HTTP status error carrying the original status code and body, and
response.json() is never invoked --- a non-JSON error body cannot cause a
parse attempt. -/
theorem claim_C4_error_before_parse (st : TokenState) (now : Int)
    (f : FetchOutcome) (resp : AmadeusClient.HttpResponse) (tok : String)
    (htok : (AmadeusClient.get_token_sync st now f).1 = .ok tok)
    (hbad : ¬(200 ≤ resp.status ∧ resp.status < 300)) :
    (AmadeusClient.request st now f resp).outcome =
      .error (.httpStatusError resp.status resp.body) ∧
    (AmadeusClient.request st now f resp).parseAttempted = false := by
  rcases hgt : AmadeusClient.get_token_sync st now f with ⟨r, st1, net⟩
  rw [hgt] at htok
  simp only at htok
  subst htok
  constructor <;> simp [AmadeusClient.request, hgt, hbad]

/-- Witness for C4 at a concrete input: a 500 response whose body "<html>"
is not JSON (its parse field is none); the executor raises the status error
and never attempts the parse. -/
theorem claim_C4_error_before_parse_witness :
    (AmadeusClient.request ⟨some "t", some 100⟩ 5 (.transportFail "down")
      ⟨500, "<html>", none⟩).outcome = .error (.httpStatusError 500 "<html>") ∧
    (AmadeusClient.request ⟨some "t", some 100⟩ 5 (.transportFail "down")
      ⟨500, "<html>", none⟩).parseAttempted = false := by
  exact claim_C4_error_before_parse ⟨some "t", some 100⟩ 5 (.transportFail "down")
    ⟨500, "<html>", none⟩ "t"
    (by rw [AmadeusClient.get_token_hit "t" 100 5 _ (by decide) (by decide)])
    (by decide)

/-- Counterexample to C5 as stated: a non-204, non-2xx response to
delete_request is NOT parsed as JSON and returned verbatim --- at status
500 with a parseable body the executor raises the status error and
parseAttempted stays false. -/
theorem claim_C5_counterexample :
    (AmadeusClient.delete_request ⟨some "t", some 100⟩ 5 (.transportFail "down")
      ⟨500, "oops", some (Json.s "body")⟩).outcome =
      .error (.httpStatusError 500 "oops") ∧
    (AmadeusClient.delete_request ⟨some "t", some 100⟩ 5 (.transportFail "down")
      ⟨500, "oops", some (Json.s "body")⟩).parseAttempted = false := by
  constructor <;> rfl

/-- C5 amended: for every response whose status is not 204, delete_request
behaves exactly like the read path (request): same outcome, same
parse-attempt behaviour; in particular, once a token was obtained, a 2xx
body is parsed as JSON and returned verbatim, and any non-2xx status
raises before parsing. -/
theorem claim_C5_delete_matches_read_path (st : TokenState) (now : Int)
    (f : FetchOutcome) (resp : AmadeusClient.HttpResponse)
    (hne : resp.status ≠ 204) :
    (AmadeusClient.delete_request st now f resp).outcome =
      (AmadeusClient.request st now f resp).outcome ∧
    (AmadeusClient.delete_request st now f resp).parseAttempted =
      (AmadeusClient.request st now f resp).parseAttempted ∧
    (∀ tok v, (AmadeusClient.get_token_sync st now f).1 = .ok tok →
      (200 ≤ resp.status ∧ resp.status < 300) → resp.json = some v →
      (AmadeusClient.delete_request st now f resp).outcome = .ok v ∧
      (AmadeusClient.delete_request st now f resp).parseAttempted = true) := by
  rcases hgt : AmadeusClient.get_token_sync st now f with ⟨r, st1, net⟩
  cases r with
  | error e =>
    exact ⟨by simp [AmadeusClient.request, AmadeusClient.delete_request, hgt],
      by simp [AmadeusClient.request, AmadeusClient.delete_request, hgt],
      by intro tok v htok h2xx hj
         simp at htok⟩
  | ok tok =>
    refine ⟨?_, ?_, ?_⟩
    · by_cases h2xx : 200 ≤ resp.status ∧ resp.status < 300
      · cases hj : resp.json <;>
          simp [AmadeusClient.request, AmadeusClient.delete_request, hgt, hne, h2xx, hj]
      · simp [AmadeusClient.request, AmadeusClient.delete_request, hgt, hne, h2xx]
    · by_cases h2xx : 200 ≤ resp.status ∧ resp.status < 300
      · cases hj : resp.json <;>
          simp [AmadeusClient.request, AmadeusClient.delete_request, hgt, hne, h2xx, hj]
      · simp [AmadeusClient.request, AmadeusClient.delete_request, hgt, hne, h2xx]
    · intro tok' v htok h2xx hj
      simp [AmadeusClient.delete_request, hgt, hne, h2xx, hj]

/-- Witness for the amended C5 at a concrete input: a 200 response whose
body parses to the string "payload" comes back verbatim from
delete_request, matching request. -/
theorem claim_C5_delete_matches_read_path_witness :
    (AmadeusClient.delete_request ⟨some "t", some 100⟩ 5 (.transportFail "down")
      ⟨200, "x", some (Json.s "payload")⟩).outcome = .ok (Json.s "payload") ∧
    (AmadeusClient.delete_request ⟨some "t", some 100⟩ 5 (.transportFail "down")
      ⟨200, "x", some (Json.s "payload")⟩).outcome =
      (AmadeusClient.request ⟨some "t", some 100⟩ 5 (.transportFail "down")
        ⟨200, "x", some (Json.s "payload")⟩).outcome := by
  have h := claim_C5_delete_matches_read_path ⟨some "t", some 100⟩ 5
    (.transportFail "down") ⟨200, "x", some (Json.s "payload")⟩ (by decide)
  exact ⟨(h.2.2 "t" (Json.s "payload")
    (by rw [AmadeusClient.get_token_hit "t" 100 5 _ (by decide) (by decide)])
    (by decide) rfl).1, h.1⟩

/-- Counterexample to C6 as stated: when the provider grants a lifetime of
at most 60 seconds (here expires_in 0), the freshly refreshed token is
attached to the request although its stored expiry (now - 60) is in the
past. -/
theorem claim_C6_counterexample :
    (AmadeusClient.request ⟨none, none⟩ 0 (.response 200 "" (some ⟨"tok", some 0⟩))
      ⟨200, "x", some (Json.obj [])⟩).tokenUsed = some "tok" ∧
    (AmadeusClient.request ⟨none, none⟩ 0 (.response 200 "" (some ⟨"tok", some 0⟩))
      ⟨200, "x", some (Json.obj [])⟩).state.token_expiry = some (-60) ∧
    ¬((0 : Int) < -60) := by
  exact ⟨rfl, rfl, by decide⟩

/-- C6 amended: provided every refresh response carries a lifetime
(expires_in, defaulting to 1700) greater than the 60-second safety margin,
every request that attaches a bearer token leaves the token slot with an
expiry strictly in the future at call time --- on a cache hit because the
guard checked now < expiry, on a refresh because expiry = now +
expires_in - 60 > now. -/
theorem claim_C6_future_expiry (st : TokenState) (now : Int) (f : FetchOutcome)
    (resp : AmadeusClient.HttpResponse) (tok : String)
    (hlife : ∀ s b d, f = .response s b (some d) → 60 < d.expires_in.getD 1700)
    (h : (AmadeusClient.request st now f resp).tokenUsed = some tok) :
    ∃ e, (AmadeusClient.request st now f resp).state.token_expiry = some e ∧
      now < e := by
  rw [AmadeusClient.request_state]
  exact AmadeusClient.get_token_success_future st now f tok hlife
    (AmadeusClient.request_tokenUsed_ok st now f resp tok h)

/-- Witness for the amended C6 at a concrete input: refresh with
expires_in 1799 at time 0; the slot ends with expiry 1739 > 0. -/
theorem claim_C6_future_expiry_witness :
    ∃ e, (AmadeusClient.request ⟨none, none⟩ 0
      (.response 200 "" (some ⟨"tok", some 1799⟩))
      ⟨200, "x", some (Json.obj [])⟩).state.token_expiry = some e ∧ (0 : Int) < e := by
  exact claim_C6_future_expiry ⟨none, none⟩ 0
    (.response 200 "" (some ⟨"tok", some 1799⟩)) ⟨200, "x", some (Json.obj [])⟩ "tok"
    (by intro s b d hd
        cases hd
        decide)
    rfl

lemma except_ok_bind {α β ε : Type} (a : α) (f : α → Except ε β) :
    (Except.ok a >>= f : Except ε β) = f a := rfl

lemma except_error_bind {α β ε : Type} (e : ε) (f : α → Except ε β) :
    ((Except.error e : Except ε α) >>= f) = Except.error e := rfl

lemma search_hotels_second_error (m : ℕ) (d1 : Json) (jstr : String) (e : PyErr)
    (hne : ¬(((d1.get "data" (Json.arr [])).asArr.take m).map
      (fun h => h.getN "hotelId")).isEmpty)
    (hj : pyJoin "," (((d1.get "data" (Json.arr [])).asArr.take m).map
      (fun h => h.getN "hotelId")) = .ok jstr) :
    Hotels.search_hotels m (.ok d1) (.error e) = .error e := by
  simp only [Hotels.search_hotels, except_ok_bind]
  rw [if_neg]
  · rw [hj, except_ok_bind, except_error_bind]
    rfl
  · simpa using hne

/-- C7: a request failure inside get_travel_recommendations is swallowed and
degraded to a one-element list whose single entry's message contains
"not available", while every other operation of the operations modules
propagates a request failure unchanged to its caller (for search_hotels:
a failure of either its first or --- once the ids were assembled --- its
second request). -/
theorem claim_C7_error_policy (e : PyErr) :
    (∃ msg, Misc.get_travel_recommendations (.error e) =
        [Json.obj [("message", Json.s msg)]] ∧
      ∃ pre post, msg = pre ++ "not available" ++ post) ∧
    (∀ oc, Misc.get_recommended_destinations oc (.error e) = .error e) ∧
    Misc.parse_trip_document (.error e) = .error e ∧
    Misc.get_parsed_trip (.error e) = .error e ∧
    Airports.search_airports (.error e) = .error e ∧
    Airports.search_cities (.error e) = .error e ∧
    Airports.get_airport_routes (.error e) = .error e ∧
    Airports.get_nearest_airports (.error e) = .error e ∧
    Airports.get_airline_destinations (.error e) = .error e ∧
    (∀ a d, Airports.get_airport_on_time_performance a d (.error e) = .error e) ∧
    Activities.search_activities (.error e) = .error e ∧
    Activities.get_activity_details (.error e) = .error e ∧
    Flights.search_flights (.error e) = .error e ∧
    Flights.get_flight_price (.error e) = .error e ∧
    Flights.search_flight_inspiration (.error e) = .error e ∧
    Flights.search_flight_availability (.error e) = .error e ∧
    Flights.get_branded_fares (.error e) = .error e ∧
    Flights.get_seatmap (.error e) = .error e ∧
    (∀ c n, Flights.get_flight_status c n (.error e) = .error e) ∧
    (∀ m r2, Hotels.search_hotels m (.error e) r2 = .error e) ∧
    (∀ m d1 jstr,
      ¬(((d1.get "data" (Json.arr [])).asArr.take m).map
        (fun h => h.getN "hotelId")).isEmpty →
      pyJoin "," (((d1.get "data" (Json.arr [])).asArr.take m).map
        (fun h => h.getN "hotelId")) = .ok jstr →
      Hotels.search_hotels m (.ok d1) (.error e) = .error e) ∧
    Hotels.get_hotel_details (.error e) = .error e ∧
    Hotels.search_hotel_by_name (.error e) = .error e ∧
    Hotels.get_hotel_ratings (.error e) = .error e ∧
    Hotels.book_hotel (.error e) = .error e ∧
    Orders.create_flight_order (.error e) = .error e ∧
    Orders.get_flight_order (.error e) = .error e ∧
    (∀ oid, Orders.cancel_flight_order oid (.error e) = .error e) ∧
    Transfers.search_transfers (.error e) = .error e ∧
    Transfers.book_transfer (.error e) = .error e ∧
    Transfers.get_transfer_order (.error e) = .error e ∧
    (∀ oid, Transfers.cancel_transfer oid (.error e) = .error e) ∧
    (∀ c y dir, Analytics.get_busiest_travel_period c y dir (.error e) = .error e) ∧
    (∀ o y, Analytics.get_most_booked_destinations o y (.error e) = .error e) ∧
    (∀ o y, Analytics.get_most_traveled_destinations o y (.error e) = .error e) ∧
    (∀ o d dd rd, Analytics.analyze_flight_price o d dd rd (.error e) = .error e) ∧
    (∀ o d c n, Analytics.predict_flight_delay o d c n (.error e) = .error e) ∧
    Analytics.predict_flight_choice (.error e) = .error e ∧
    (∀ o d dd rd, Analytics.predict_trip_purpose o d dd rd (.error e) = .error e) := by
  refine ⟨?_, fun oc => rfl, rfl, rfl, rfl, rfl, rfl, rfl, rfl, fun a d => rfl,
    rfl, rfl, rfl, rfl, rfl, rfl, rfl, rfl, fun c n => rfl, fun m r2 => rfl,
    fun m d1 jstr hne hj => search_hotels_second_error m d1 jstr e hne hj,
    rfl, rfl, rfl, rfl, rfl, rfl, fun oid => rfl, rfl, rfl, rfl, fun oid => rfl,
    fun c y dir => rfl, fun o y => rfl, fun o y => rfl, fun o d dd rd => rfl,
    fun o d c n => rfl, rfl, fun o d dd rd => rfl⟩
  refine ⟨"Recommendations not available: " ++ e.str, rfl,
    "Recommendations ", ": " ++ e.str, ?_⟩
  simp only [← String.append_assoc]
  rfl

/-- Witness for C7 at a concrete input: a transport failure during the
recommendation lookup yields the informational entry, while the same
failure propagates out of search_airports, and out of search_hotels when
its second request fails after the first returned one hotel id. -/
theorem claim_C7_error_policy_witness :
    Misc.get_travel_recommendations (.error (.transportError "timeout")) =
      [Json.obj [("message", Json.s "Recommendations not available: timeout")]] ∧
    Airports.search_airports (.error (.transportError "timeout")) =
      .error (.transportError "timeout") ∧
    Hotels.search_hotels 10
      (.ok (Json.obj [("data", Json.arr [Json.obj [("hotelId", Json.s "H1")]])]))
      (.error (.transportError "timeout")) = .error (.transportError "timeout") := by
  have h := claim_C7_error_policy (.transportError "timeout")
  refine ⟨rfl, h.2.2.2.2.1, ?_⟩
  exact h.2.2.2.2.2.2.2.2.2.2.2.2.2.2.2.2.2.2.2.2.1 10
      (Json.obj [("data", Json.arr [Json.obj [("hotelId", Json.s "H1")]])]) "H1"
      (by decide) (by rfl)

/-- C10: the recommendation lookup never returns more than 15 entries (its
error path returns exactly one), and the flight-inspiration search never
returns more than 20 entries, whatever the backend sends. -/
theorem claim_C10_truncation :
    (∀ r, (Misc.get_travel_recommendations r).length ≤ 15) ∧
    (∀ r l, Flights.search_flight_inspiration r = .ok l → l.length ≤ 20) := by
  constructor
  · intro r
    cases r with
    | error e => simp [Misc.get_travel_recommendations]
    | ok data =>
      simp only [Misc.get_travel_recommendations, List.length_map]
      exact le_trans (List.length_take_le 15 _) (le_refl 15)
  · intro r l h
    cases r with
    | error e => simp [Flights.search_flight_inspiration, except_error_bind] at h
    | ok data =>
      simp only [Flights.search_flight_inspiration, except_ok_bind,
        Except.ok.injEq] at h
      subst h
      simp only [List.length_map]
      exact le_trans (List.length_take_le 20 _) (le_refl 20)

/-- Witness for C10 at concrete inputs: an error-path lookup (length 1) and
an inspiration search over an empty payload (length 0). -/
theorem claim_C10_truncation_witness :
    (Misc.get_travel_recommendations (.error .jsonDecodeError)).length ≤ 15 ∧
    ([] : List Json).length ≤ 20 := by
  exact ⟨claim_C10_truncation.1 (.error .jsonDecodeError),
    claim_C10_truncation.2 (.ok (Json.obj [])) [] rfl⟩

/-!
## Helper lemmas for the hotel-search claims
-/

lemma mapM_except_ok_length {α β : Type} (f : α → Except PyErr β) :
    ∀ (xs : List α) (ys : List β), xs.mapM f = .ok ys → ys.length = xs.length := by
  intro xs
  induction xs with
  | nil =>
    intro ys h
    rw [List.mapM_nil] at h
    have hys : ys = [] := by simpa [pure, Except.pure] using h.symm
    subst hys
    simp
  | cons x rest ih =>
    intro ys h
    rw [List.mapM_cons] at h
    cases hx : f x with
    | error e => rw [hx, except_error_bind] at h; exact absurd h (by simp)
    | ok y =>
      rw [hx, except_ok_bind] at h
      cases hrest : rest.mapM f with
      | error e => rw [hrest, except_error_bind] at h; exact absurd h (by simp)
      | ok ys' =>
        rw [hrest, except_ok_bind] at h
        simp only [pure, Except.pure, Except.ok.injEq] at h
        subst h
        simp [ih ys' hrest]

lemma mapM_except_ok_mem {α β : Type} (f : α → Except PyErr β) :
    ∀ (xs : List α) (ys : List β), xs.mapM f = .ok ys →
      ∀ y ∈ ys, ∃ x ∈ xs, f x = .ok y := by
  intro xs
  induction xs with
  | nil =>
    intro ys h
    rw [List.mapM_nil] at h
    have hys : ys = [] := by simpa [pure, Except.pure] using h.symm
    subst hys
    simp
  | cons x rest ih =>
    intro ys h
    rw [List.mapM_cons] at h
    cases hx : f x with
    | error e => rw [hx, except_error_bind] at h; exact absurd h (by simp)
    | ok y =>
      rw [hx, except_ok_bind] at h
      cases hrest : rest.mapM f with
      | error e => rw [hrest, except_error_bind] at h; exact absurd h (by simp)
      | ok ys' =>
        rw [hrest, except_ok_bind] at h
        simp only [pure, Except.pure, Except.ok.injEq] at h
        subst h
        intro z hz
        rcases List.mem_cons.mp hz with hz | hz
        · exact ⟨x, List.mem_cons_self _ _, by rw [hx, hz]⟩
        · obtain ⟨x', hx', hfx'⟩ := ih ys' hrest z hz
          exact ⟨x', List.mem_cons_of_mem _ hx', hfx'⟩

lemma py_min_by_spec (key : Json → Except PyErr ℚ) :
    ∀ (xs : List Json) (best : Json) (bk : ℚ) (c : Json),
      key best = .ok bk → Hotels.py_min_by key best bk xs = .ok c →
      c ∈ best :: xs ∧ ∃ kc, key c = .ok kc ∧ kc ≤ bk ∧
        ∀ x ∈ xs, ∀ kx, key x = .ok kx → kc ≤ kx := by
  intro xs
  induction xs with
  | nil =>
    intro best bk c hb h
    simp only [Hotels.py_min_by, Except.ok.injEq] at h
    subst h
    exact ⟨List.mem_cons_self _ _, bk, hb, le_refl bk, by simp⟩
  | cons x rest ih =>
    intro best bk c hb h
    simp only [Hotels.py_min_by] at h
    cases hx : key x with
    | error e => rw [hx, except_error_bind] at h; exact absurd h (by simp)
    | ok kx =>
      rw [hx, except_ok_bind] at h
      by_cases hlt : kx < bk
      · rw [if_pos hlt] at h
        obtain ⟨hmem, kc, hkc, hle, hall⟩ := ih x kx c hx h
        refine ⟨?_, kc, hkc, le_trans hle (le_of_lt hlt), ?_⟩
        · rcases List.mem_cons.mp hmem with h1 | h1
          · exact List.mem_cons_of_mem _ (h1 ▸ List.mem_cons_self _ _)
          · exact List.mem_cons_of_mem _ (List.mem_cons_of_mem _ h1)
        · intro z hz kz hkz
          rcases List.mem_cons.mp hz with h1 | h1
          · have hzz : kz = kx := by
              rw [h1] at hkz
              exact Except.ok.inj (hkz.symm.trans hx)
            rw [hzz]
            exact hle
          · exact hall z h1 kz hkz
      · rw [if_neg hlt] at h
        obtain ⟨hmem, kc, hkc, hle, hall⟩ := ih best bk c hb h
        refine ⟨?_, kc, hkc, hle, ?_⟩
        · rcases List.mem_cons.mp hmem with h1 | h1
          · exact h1 ▸ List.mem_cons_self _ _
          · exact List.mem_cons_of_mem _ (List.mem_cons_of_mem _ h1)
        · intro z hz kz hkz
          rcases List.mem_cons.mp hz with h1 | h1
          · have hkzkx : kz = kx := by
              rw [h1] at hkz
              exact Except.ok.inj (hkz.symm.trans hx)
            rw [hkzkx]
            exact le_trans hle (le_of_not_lt hlt)
          · exact hall z h1 kz hkz

lemma build_entries_length :
    ∀ (hotels : List Json) (es : List Json), Hotels.build_entries hotels = .ok es →
      es.length =
        (hotels.filter (fun h => pyTruthy (h.get "offers" (Json.arr [])))).length := by
  intro hotels
  induction hotels with
  | nil =>
    intro es h
    simp only [Hotels.build_entries, Except.ok.injEq] at h
    subst h
    simp
  | cons hotel rest ih =>
    intro es h
    simp only [Hotels.build_entries] at h
    by_cases ht : pyTruthy (hotel.get "offers" (Json.arr []))
    · rw [if_pos ht] at h
      cases harr : (hotel.get "offers" (Json.arr [])).asArr with
      | nil => rw [harr] at h; exact absurd h (by simp [Hotels.build_entry_cons])
      | cons o os =>
        rw [harr] at h
        simp only [Hotels.build_entry_cons] at h
        cases hk : Hotels.offer_key o with
        | error e => rw [hk, except_error_bind] at h; exact absurd h (by simp)
        | ok k0 =>
          rw [hk, except_ok_bind] at h
          cases hmin : Hotels.py_min_by Hotels.offer_key o k0 os with
          | error e => rw [hmin, except_error_bind] at h; exact absurd h (by simp)
          | ok cheapest =>
            rw [hmin, except_ok_bind] at h
            cases hb : Hotels.build_entries rest with
            | error e => rw [hb, except_error_bind] at h; exact absurd h (by simp)
            | ok others =>
              rw [hb, except_ok_bind] at h
              simp only [Except.ok.injEq] at h
              subst h
              simp [List.filter_cons, ht, ih others hb]
    · rw [if_neg ht] at h
      simp [List.filter_cons, ht, ih es h]

lemma build_entries_cheapest :
    ∀ (hotels : List Json) (es : List Json), Hotels.build_entries hotels = .ok es →
      ∀ entry ∈ es, ∃ h ∈ hotels, ∃ o os,
        (h.get "offers" (Json.arr [])).asArr = o :: os ∧ ∃ c ∈ o :: os,
          entry = Hotels.shape_hotel (h.get "hotel" (Json.obj [])) c ∧
          ∃ kc, Hotels.offer_key c = .ok kc ∧
            ∀ o' ∈ o :: os, ∀ k', Hotels.offer_key o' = .ok k' → kc ≤ k' := by
  intro hotels
  induction hotels with
  | nil =>
    intro es h
    simp only [Hotels.build_entries, Except.ok.injEq] at h
    subst h
    simp
  | cons hotel rest ih =>
    intro es h
    simp only [Hotels.build_entries] at h
    by_cases ht : pyTruthy (hotel.get "offers" (Json.arr []))
    · rw [if_pos ht] at h
      cases harr : (hotel.get "offers" (Json.arr [])).asArr with
      | nil => rw [harr] at h; exact absurd h (by simp [Hotels.build_entry_cons])
      | cons o os =>
        rw [harr] at h
        simp only [Hotels.build_entry_cons] at h
        cases hk : Hotels.offer_key o with
        | error e => rw [hk, except_error_bind] at h; exact absurd h (by simp)
        | ok k0 =>
          rw [hk, except_ok_bind] at h
          cases hmin : Hotels.py_min_by Hotels.offer_key o k0 os with
          | error e => rw [hmin, except_error_bind] at h; exact absurd h (by simp)
          | ok cheapest =>
            rw [hmin, except_ok_bind] at h
            cases hb : Hotels.build_entries rest with
            | error e => rw [hb, except_error_bind] at h; exact absurd h (by simp)
            | ok others =>
              rw [hb, except_ok_bind] at h
              simp only [Except.ok.injEq] at h
              subst h
              intro entry hentry
              rcases List.mem_cons.mp hentry with he | he
              · obtain ⟨hcmem, kc, hkc, hkle, hall⟩ :=
                  py_min_by_spec Hotels.offer_key os o k0 cheapest hk hmin
                refine ⟨hotel, List.mem_cons_self _ _, o, os, harr, cheapest, hcmem,
                  he, kc, hkc, ?_⟩
                intro o' ho' k' hk'
                rcases List.mem_cons.mp ho' with h1 | h1
                · have : k' = k0 := by
                    rw [h1] at hk'
                    exact Except.ok.inj (hk'.symm.trans hk)
                  rw [this]
                  exact hkle
                · exact hall o' h1 k' hk'
              · obtain ⟨h', hmem', rest'⟩ := ih others hb entry he
                exact ⟨h', List.mem_cons_of_mem _ hmem', rest'⟩
    · rw [if_neg ht] at h
      intro entry hentry
      obtain ⟨h', hmem', rest'⟩ := ih es h entry hentry
      exact ⟨h', List.mem_cons_of_mem _ hmem', rest'⟩

lemma py_sorted_by_length (key : Json → Except PyErr ℚ) (xs l : List Json)
    (h : Hotels.py_sorted_by key xs = .ok l) : l.length = xs.length := by
  simp only [Hotels.py_sorted_by] at h
  cases hmap : xs.mapM (fun x => do
      let k ← key x
      pure (k, x)) with
  | error e => rw [hmap, except_error_bind] at h; exact absurd h (by simp)
  | ok pairs =>
    rw [hmap, except_ok_bind] at h
    simp only [Except.ok.injEq] at h
    subst h
    rw [List.length_map, (List.perm_insertionSort _ pairs).length_eq]
    exact mapM_except_ok_length _ xs pairs hmap

lemma py_sorted_by_key_of_pair (key : Json → Except PyErr ℚ) (xs : List Json)
    (pairs : List (ℚ × Json))
    (hmap : xs.mapM (fun x => do
      let k ← key x
      pure (k, x)) = .ok pairs) :
    ∀ p ∈ pairs, key p.2 = .ok p.1 := by
  intro p hp
  obtain ⟨x, _, hfx⟩ := mapM_except_ok_mem _ xs pairs hmap p hp
  cases hk : key x with
  | error e => rw [hk, except_error_bind] at hfx; exact absurd hfx (by simp)
  | ok k =>
    rw [hk, except_ok_bind] at hfx
    simp only [pure, Except.pure, Except.ok.injEq] at hfx
    rw [← hfx]
    exact hk

lemma py_sorted_by_sorted (key : Json → Except PyErr ℚ) (xs l : List Json)
    (h : Hotels.py_sorted_by key xs = .ok l) :
    l.Pairwise (fun a b => ∀ ka kb, key a = .ok ka → key b = .ok kb → ka ≤ kb) := by
  simp only [Hotels.py_sorted_by] at h
  cases hmap : xs.mapM (fun x => do
      let k ← key x
      pure (k, x)) with
  | error e => rw [hmap, except_error_bind] at h; exact absurd h (by simp)
  | ok pairs =>
    rw [hmap, except_ok_bind] at h
    simp only [Except.ok.injEq] at h
    subst h
    rw [List.pairwise_map]
    haveI : IsTotal (ℚ × Json) (fun p q => p.1 ≤ q.1) := ⟨fun a b => le_total a.1 b.1⟩
    haveI : IsTrans (ℚ × Json) (fun p q => p.1 ≤ q.1) :=
      ⟨fun a b c hab hbc => le_trans hab hbc⟩
    have hsorted := List.sorted_insertionSort (fun p q : ℚ × Json => p.1 ≤ q.1) pairs
    have hmemsort : ∀ p ∈ pairs.insertionSort (fun p q : ℚ × Json => p.1 ≤ q.1),
        p ∈ pairs := fun p hp => (List.perm_insertionSort _ pairs).mem_iff.mp hp
    refine hsorted.imp_of_mem ?_
    intro p q hp hq hle ka kb hka hkb
    have hkp := py_sorted_by_key_of_pair key xs pairs hmap p (hmemsort p hp)
    have hkq := py_sorted_by_key_of_pair key xs pairs hmap q (hmemsort q hq)
    have h1 : ka = p.1 := Except.ok.inj (hka.symm.trans hkp)
    have h2 : kb = q.1 := Except.ok.inj (hkb.symm.trans hkq)
    rw [h1, h2]
    exact hle

lemma py_sorted_by_mem (key : Json → Except PyErr ℚ) (xs l : List Json)
    (h : Hotels.py_sorted_by key xs = .ok l) : ∀ x ∈ l, x ∈ xs := by
  simp only [Hotels.py_sorted_by] at h
  cases hmap : xs.mapM (fun x => do
      let k ← key x
      pure (k, x)) with
  | error e => rw [hmap, except_error_bind] at h; exact absurd h (by simp)
  | ok pairs =>
    rw [hmap, except_ok_bind] at h
    simp only [Except.ok.injEq] at h
    subst h
    intro x hx
    obtain ⟨p, hp, hpx⟩ := List.mem_map.mp hx
    obtain ⟨x', hx', hfx'⟩ := mapM_except_ok_mem _ xs pairs hmap p
      ((List.perm_insertionSort _ pairs).mem_iff.mp hp)
    cases hk : key x' with
    | error e => rw [hk, except_error_bind] at hfx'; exact absurd hfx' (by simp)
    | ok k =>
      rw [hk, except_ok_bind] at hfx'
      simp only [pure, Except.pure, Except.ok.injEq] at hfx'
      rw [← hpx, ← hfx']
      exact hx'

/-- C9: when the hotels-by-city payload yields no hotel ids (after the
max_results truncation), search_hotels returns the empty list whatever the
second request would produce --- in particular it does not consult it ---
and when the ids are nonempty (so the offers request is made), hotels
whose offers list is empty are omitted: the result has exactly one entry
per hotel with a truthy offers list. -/
theorem claim_C9_empty_ids_and_offers (m : ℕ) (d1 : Json) :
    ((((d1.get "data" (Json.arr [])).asArr.take m).map
        (fun h => h.getN "hotelId")) = [] →
      ∀ r2, Hotels.search_hotels m (.ok d1) r2 = .ok []) ∧
    ((((d1.get "data" (Json.arr [])).asArr.take m).map
        (fun h => h.getN "hotelId")) ≠ [] →
      ∀ (d2 : Json) (l : List Json),
      Hotels.search_hotels m (.ok d1) (.ok d2) = .ok l →
      l.length = ((d2.get "data" (Json.arr [])).asArr.filter
        (fun h => pyTruthy (h.get "offers" (Json.arr [])))).length) := by
  constructor
  · intro hids r2
    simp only [Hotels.search_hotels, except_ok_bind]
    rw [if_pos (by simp [hids])]
    rfl
  · intro hne d2 l hsh
    simp only [Hotels.search_hotels, except_ok_bind] at hsh
    rw [if_neg (by simpa using hne)] at hsh
    cases hjoin : pyJoin "," (((d1.get "data" (Json.arr [])).asArr.take m).map
        (fun h => h.getN "hotelId")) with
    | error e => rw [hjoin, except_error_bind] at hsh; exact absurd hsh (by simp)
    | ok jstr =>
      rw [hjoin, except_ok_bind, pure_bind] at hsh
      cases hb : Hotels.build_entries (d2.get "data" (Json.arr [])).asArr with
      | error e => rw [hb, except_error_bind] at hsh; exact absurd hsh (by simp)
      | ok entries =>
        rw [hb, except_ok_bind] at hsh
        rw [py_sorted_by_length Hotels.sort_key entries l hsh]
        exact build_entries_length _ entries hb

/-- The hotels-by-city payload of the C8/C9 scenario: two hotel ids. -/
def cityPayloadC8 : Json :=
  Json.obj [("data", Json.arr [
    Json.obj [("hotelId", Json.s "H1")],
    Json.obj [("hotelId", Json.s "H2")]])]

/-- An offer with an id and a USD price total, as the offers endpoint
returns it. -/
def offerC8 (oid total : String) : Json :=
  Json.obj [
    ("id", Json.s oid),
    ("price", Json.obj [("total", Json.s total), ("currency", Json.s "USD")])]

/-- A hotel-offers entry holding one hotel and one offer. -/
def hotelC8 (hid nm : String) (offer : Json) : Json :=
  Json.obj [
    ("hotel", Json.obj [("hotelId", Json.s hid), ("name", Json.s nm)]),
    ("offers", Json.arr [offer])]

/-- The offers payload of the C8 scenario: hotel H1 priced 200.00, hotel
H2 priced 150.00. -/
def offersPayloadC8 : Json :=
  Json.obj [("data", Json.arr [
    hotelC8 "H1" "Hotel A" (offerC8 "O1" "200.00"),
    hotelC8 "H2" "Hotel B" (offerC8 "O2" "150.00")])]

/-- The offers payload of the C9 scenario: hotel H1 with one priced offer,
hotel H2 with an empty offers list. -/
def offersPayloadC9 : Json :=
  Json.obj [("data", Json.arr [
    Json.obj [("hotel", Json.obj [("hotelId", Json.s "H1")]),
              ("offers", Json.arr [offerC8 "O1" "99.00"])],
    Json.obj [("hotel", Json.obj [("hotelId", Json.s "H2")]),
              ("offers", Json.arr [])]])]

/-- The single shaped entry produced from offersPayloadC9. -/
def shapedC9 : Json :=
  Hotels.shape_hotel (Json.obj [("hotelId", Json.s "H1")]) (offerC8 "O1" "99.00")

/-- Witness for C9 at concrete inputs: an empty hotels-by-city payload
short-circuits to the empty list even when the offers request would fail,
and with two ids and an offers payload of one hotel-with-offer plus one
hotel-without-offers the result has exactly one entry. -/
theorem claim_C9_empty_ids_and_offers_witness :
    Hotels.search_hotels 10 (.ok (Json.obj [])) (.error .jsonDecodeError) =
      .ok [] ∧
    Hotels.search_hotels 10 (.ok cityPayloadC8) (.ok offersPayloadC9) =
      .ok [shapedC9] ∧
    [shapedC9].length = ((offersPayloadC9.get "data" (Json.arr [])).asArr.filter
      (fun h => pyTruthy (h.get "offers" (Json.arr [])))).length := by
  refine ⟨(claim_C9_empty_ids_and_offers 10 (Json.obj [])).1 rfl _, rfl, ?_⟩
  exact (claim_C9_empty_ids_and_offers 10 cityPayloadC8).2
    (by simp [cityPayloadC8, Json.get, Json.getN, Json.asArr])
    offersPayloadC9 [shapedC9] rfl

/-- C8: every successful hotel-search result is sorted in ascending order
of the per-entry price key; every entry is the shaping of some payload
hotel by an offer of that hotel whose price key is minimal among the
hotel's offers (min with strict comparison keeps the first minimum, like
Python's min); and on the concrete scenario with hotels priced 200.00 and
150.00 the 150.00-priced hotel H2 comes first. -/
theorem claim_C8_cheapest_sorted :
    (∀ (m : ℕ) (r1 r2 : Except PyErr Json) (l : List Json),
      Hotels.search_hotels m r1 r2 = .ok l →
      l.Pairwise (fun a b => ∀ ka kb, Hotels.sort_key a = .ok ka →
        Hotels.sort_key b = .ok kb → ka ≤ kb)) ∧
    (∀ (m : ℕ) (r1 : Except PyErr Json) (d2 : Json) (l : List Json),
      Hotels.search_hotels m r1 (.ok d2) = .ok l →
      ∀ entry ∈ l, ∃ h ∈ (d2.get "data" (Json.arr [])).asArr, ∃ o os,
        (h.get "offers" (Json.arr [])).asArr = o :: os ∧ ∃ c ∈ o :: os,
          entry = Hotels.shape_hotel (h.get "hotel" (Json.obj [])) c ∧
          ∃ kc, Hotels.offer_key c = .ok kc ∧
            ∀ o' ∈ o :: os, ∀ k', Hotels.offer_key o' = .ok k' → kc ≤ k') ∧
    Hotels.search_hotels 10 (.ok cityPayloadC8) (.ok offersPayloadC8) =
      .ok [Hotels.shape_hotel
            (Json.obj [("hotelId", Json.s "H2"), ("name", Json.s "Hotel B")])
            (offerC8 "O2" "150.00"),
          Hotels.shape_hotel
            (Json.obj [("hotelId", Json.s "H1"), ("name", Json.s "Hotel A")])
            (offerC8 "O1" "200.00")] := by
  refine ⟨?_, ?_, rfl⟩
  · intro m r1 r2 l hsh
    cases r1 with
    | error e =>
      rw [show Hotels.search_hotels m (.error e) r2 = .error e from rfl] at hsh
      exact absurd hsh (by simp)
    | ok d1 =>
      simp only [Hotels.search_hotels, except_ok_bind] at hsh
      by_cases hids : (((d1.get "data" (Json.arr [])).asArr.take m).map
          (fun h => h.getN "hotelId")).isEmpty
      · rw [if_pos hids] at hsh
        have hl : l = [] := by simpa [pure, Except.pure] using hsh.symm
        subst hl
        exact List.Pairwise.nil
      · rw [if_neg hids] at hsh
        cases hjoin : pyJoin "," (((d1.get "data" (Json.arr [])).asArr.take m).map
            (fun h => h.getN "hotelId")) with
        | error e => rw [hjoin, except_error_bind] at hsh; exact absurd hsh (by simp)
        | ok jstr =>
          rw [hjoin, except_ok_bind, pure_bind] at hsh
          cases r2 with
          | error e => rw [except_error_bind] at hsh; exact absurd hsh (by simp)
          | ok d2 =>
            rw [except_ok_bind] at hsh
            cases hb : Hotels.build_entries (d2.get "data" (Json.arr [])).asArr with
            | error e =>
              rw [hb, except_error_bind] at hsh; exact absurd hsh (by simp)
            | ok entries =>
              rw [hb, except_ok_bind] at hsh
              exact py_sorted_by_sorted Hotels.sort_key entries l hsh
  · intro m r1 d2 l hsh entry hentry
    cases r1 with
    | error e =>
      rw [show Hotels.search_hotels m (.error e) (.ok d2) = .error e from rfl] at hsh
      exact absurd hsh (by simp)
    | ok d1 =>
      simp only [Hotels.search_hotels, except_ok_bind] at hsh
      by_cases hids : (((d1.get "data" (Json.arr [])).asArr.take m).map
          (fun h => h.getN "hotelId")).isEmpty
      · rw [if_pos hids] at hsh
        have hl : l = [] := by simpa [pure, Except.pure] using hsh.symm
        subst hl
        exact absurd hentry (by simp)
      · rw [if_neg hids] at hsh
        cases hjoin : pyJoin "," (((d1.get "data" (Json.arr [])).asArr.take m).map
            (fun h => h.getN "hotelId")) with
        | error e => rw [hjoin, except_error_bind] at hsh; exact absurd hsh (by simp)
        | ok jstr =>
          rw [hjoin, except_ok_bind, pure_bind] at hsh
          cases hb : Hotels.build_entries (d2.get "data" (Json.arr [])).asArr with
          | error e =>
            rw [hb, except_error_bind] at hsh; exact absurd hsh (by simp)
          | ok entries =>
            rw [hb, except_ok_bind] at hsh
            exact build_entries_cheapest _ entries hb entry
              (py_sorted_by_mem Hotels.sort_key entries l hsh entry hentry)

/-- Witness for C8: the sortedness and cheapest-offer statements applied to
the concrete 200.00/150.00 scenario. -/
theorem claim_C8_cheapest_sorted_witness :
    ([Hotels.shape_hotel
        (Json.obj [("hotelId", Json.s "H2"), ("name", Json.s "Hotel B")])
        (offerC8 "O2" "150.00"),
      Hotels.shape_hotel
        (Json.obj [("hotelId", Json.s "H1"), ("name", Json.s "Hotel A")])
        (offerC8 "O1" "200.00")].Pairwise
      (fun a b => ∀ ka kb, Hotels.sort_key a = .ok ka →
        Hotels.sort_key b = .ok kb → ka ≤ kb)) ∧
    (∃ h ∈ (offersPayloadC8.get "data" (Json.arr [])).asArr, ∃ o os,
      (h.get "offers" (Json.arr [])).asArr = o :: os ∧ ∃ c ∈ o :: os,
        Hotels.shape_hotel
            (Json.obj [("hotelId", Json.s "H2"), ("name", Json.s "Hotel B")])
            (offerC8 "O2" "150.00") =
          Hotels.shape_hotel (h.get "hotel" (Json.obj [])) c ∧
        ∃ kc, Hotels.offer_key c = .ok kc ∧
          ∀ o' ∈ o :: os, ∀ k', Hotels.offer_key o' = .ok k' → kc ≤ k') := by
  constructor
  · exact claim_C8_cheapest_sorted.1 10 (.ok cityPayloadC8) (.ok offersPayloadC8)
      _ claim_C8_cheapest_sorted.2.2
  · exact claim_C8_cheapest_sorted.2.1 10 (.ok cityPayloadC8) offersPayloadC8
      _ claim_C8_cheapest_sorted.2.2 _ (List.mem_cons_self _ _)
